import Mathlib

/-!
Shallow embedding of the zundamahjong voice-generation scripts
(`src/scripts/generate_voicevox_voices.py`, `src/scripts/generate_quote_voices.py`
and `src/update_voices.py`) together with proofs about the properties of the
endpoint resolver, the synthesis client and the batch runners.

Conventions of the embedding:
  * Python dicts holding the structured synthesis query are association lists
    `List (String × JVal)`; numeric JSON values (the tuning scales) are
    rationals, every other JSON value is opaque.
  * The HTTP layer is modelled by `TransportOutcome`: a call either fails at
    the transport level (connection error / timeout) or yields a response
    with a status code and a body.  `requests`' `raise_for_status` is
    `raiseForStatus`; update_voices.py omits the status check, which is
    modelled by `doRequestRaw`.
  * Uncaught Python exceptions are `Except.error` results.
-/

namespace Zunda

/-- JSON-like field values stored in a synthesis query dictionary.  The
numeric fields (the tuning scale factors) are modelled exactly as rationals;
any other JSON value (strings, arrays such as `accent_phrases`, ...) is an
opaque token. -/
inductive JVal where
  | num (q : ℚ)
  | other (tag : Nat)
deriving DecidableEq

/-- Lookup of a key in an association-list dictionary (Python `d[k]` /
`d.get(k)`): first binding wins; Python dicts have unique keys. -/
def dlookup {α : Type} : List (String × α) → String → Option α
  | [], _ => none
  | (k0, v0) :: rest, k => if k0 = k then some v0 else dlookup rest k

/-- Whether a key is present in the dictionary (Python `k in d`). -/
def hasKey {α : Type} : List (String × α) → String → Bool
  | [], _ => false
  | (k0, _) :: rest, k => k0 = k || hasKey rest k

/-- All keys of the dictionary are distinct — the invariant every Python
dict satisfies. -/
def nodupKeys {α : Type} : List (String × α) → Bool
  | [] => true
  | (k0, _) :: rest => !hasKey rest k0 && nodupKeys rest

/-- Python `d[k] = v`: replace the binding of `k` if present (keeping its
position), otherwise append a new binding at the end. -/
def setItem {α : Type} : List (String × α) → String → α → List (String × α)
  | [], k, v => [(k, v)]
  | (k0, v0) :: rest, k, v =>
    if k0 = k then (k, v) :: rest else (k0, v0) :: setItem rest k v

/-- Python `d.update(t)`: assign every binding of `t` into `d`, left to
right (`for k, v in t.items(): d[k] = v`).  Used by
generate_quote_voices.py line 109: `query.update(tuning)`. -/
def dictUpdate {α : Type} (d t : List (String × α)) : List (String × α) :=
  t.foldl (fun acc kv => setItem acc kv.1 kv.2) d

theorem dlookup_setItem_self {α : Type} (q : List (String × α)) (k : String) (v : α) :
    dlookup (setItem q k v) k = some v := by
  induction q with
  | nil => simp [setItem, dlookup]
  | cons kv rest ih =>
    obtain ⟨k0, v0⟩ := kv
    by_cases h : k0 = k
    · simp [setItem, h, dlookup]
    · simp [setItem, h, dlookup, ih]

theorem dlookup_setItem_other {α : Type} (q : List (String × α)) (k k' : String) (v : α)
    (hne : k' ≠ k) : dlookup (setItem q k v) k' = dlookup q k' := by
  have hne' : ¬ k = k' := fun h => hne h.symm
  induction q with
  | nil => simp [setItem, dlookup, hne']
  | cons kv rest ih =>
    obtain ⟨k0, v0⟩ := kv
    by_cases h : k0 = k
    · subst h
      simp [setItem, dlookup, hne']
    · rw [setItem, if_neg h]
      by_cases h' : k0 = k'
      · rw [dlookup, if_pos h', dlookup, if_pos h']
      · rw [dlookup, if_neg h', dlookup, if_neg h']
        exact ih

theorem dlookup_eq_none_of_hasKey_false {α : Type} (t : List (String × α)) (k : String)
    (h : hasKey t k = false) : dlookup t k = none := by
  induction t with
  | nil => rfl
  | cons kv rest ih =>
    obtain ⟨k0, v0⟩ := kv
    rw [hasKey, Bool.or_eq_false_iff] at h
    obtain ⟨h1, h2⟩ := h
    have hne : ¬ k0 = k := by simpa using h1
    rw [dlookup, if_neg hne]
    exact ih h2

theorem dlookup_dictUpdate_of_none {α : Type} (t : List (String × α)) (k : String) :
    ∀ (q : List (String × α)), dlookup t k = none →
      dlookup (dictUpdate q t) k = dlookup q k := by
  induction t with
  | nil => intro q _; rfl
  | cons kv rest ih =>
    obtain ⟨k0, v0⟩ := kv
    intro q h
    rw [dlookup] at h
    by_cases hk : k0 = k
    · rw [if_pos hk] at h
      exact absurd h (by simp)
    · rw [if_neg hk] at h
      show dlookup (dictUpdate (setItem q k0 v0) rest) k = dlookup q k
      rw [ih (setItem q k0 v0) h]
      exact dlookup_setItem_other q k0 k v0 (fun hh => hk hh.symm)

theorem dlookup_dictUpdate_of_some {α : Type} (t : List (String × α)) (k : String) (v : α) :
    ∀ (q : List (String × α)), nodupKeys t = true → dlookup t k = some v →
      dlookup (dictUpdate q t) k = some v := by
  induction t with
  | nil => intro q _ h; exact absurd h (by simp [dlookup])
  | cons kv rest ih =>
    obtain ⟨k0, v0⟩ := kv
    intro q ht h
    rw [nodupKeys, Bool.and_eq_true] at ht
    obtain ⟨ht1, ht2⟩ := ht
    have hkey : hasKey rest k0 = false := by simpa using ht1
    rw [dlookup] at h
    by_cases hk : k0 = k
    · subst hk
      rw [if_pos rfl] at h
      have hv := Option.some.inj h
      subst hv
      show dlookup (dictUpdate (setItem q k0 v0) rest) k0 = some v0
      rw [dlookup_dictUpdate_of_none rest k0 (setItem q k0 v0)
        (dlookup_eq_none_of_hasKey_false rest k0 hkey)]
      exact dlookup_setItem_self q k0 v0
    · rw [if_neg hk] at h
      show dlookup (dictUpdate (setItem q k0 v0) rest) k = some v
      exact ih (setItem q k0 v0) ht2 h

/-! ### HTTP transport model (`requests`) -/

/-- Outcome of one HTTP request at the transport level: `requests` either
raises `ConnectionError`, raises `Timeout`, or delivers a response carrying
a status code and a body of type `β`. -/
inductive TransportOutcome (β : Type) where
  | connError
  | timeoutError
  | response (status : Nat) (body : β)
deriving DecidableEq

/-- Exceptions the scripts catch: `requests.exceptions.ConnectionError`,
`Timeout` and `HTTPError` (the latter carrying the response status). -/
inductive ReqErr where
  | connectionError
  | timeoutError
  | httpError (status : Nat)
deriving DecidableEq

/-- `Response.raise_for_status()`: raises `HTTPError` exactly for 4xx and
5xx status codes. -/
def raiseForStatus (status : Nat) : Except ReqErr Unit :=
  if 400 ≤ status ∧ status < 600 then .error (.httpError status) else .ok ()

/-- One request followed by `raise_for_status`, as performed by
`check_voicevox`, `audio_query` and `synthesis` in both scripts under
`src/scripts/`: transport failures and HTTP error statuses become
exceptions, otherwise the response body is returned. -/
def doRequest {β : Type} : TransportOutcome β → Except ReqErr β
  | .connError => .error .connectionError
  | .timeoutError => .error .timeoutError
  | .response s b =>
    match raiseForStatus s with
    | .error e => .error e
    | .ok _ => .ok b

/-- One request with NO status check, as performed by
`src/update_voices.py` (`generate_wav` never calls `raise_for_status`):
transport failures still raise, but any response body is accepted,
whatever its status code. -/
def doRequestRaw {β : Type} : TransportOutcome β → Except ReqErr β
  | .connError => .error .connectionError
  | .timeoutError => .error .timeoutError
  | .response _ b => .ok b

/-- True when the `Except` carries an exception. -/
def exceptFailed {ε β : Type} : Except ε β → Bool
  | .error _ => true
  | .ok _ => false

/-! ### Hex parsing and gateway decoding
(`_get_default_gateway_linux`, src/scripts/generate_voicevox_voices.py
lines 15-31) -/

/-- Value of one hexadecimal digit, `none` for a non-hex character. -/
def hexDigitVal (c : Char) : Option Nat :=
  if '0' ≤ c ∧ c ≤ '9' then some (c.toNat - '0'.toNat)
  else if 'a' ≤ c ∧ c ≤ 'f' then some (c.toNat - 'a'.toNat + 10)
  else if 'A' ≤ c ∧ c ≤ 'F' then some (c.toNat - 'A'.toNat + 10)
  else none

/-- Accumulating base-16 evaluation of a digit string. -/
def hexAccum : List Char → Nat → Option Nat
  | [], acc => some acc
  | c :: cs, acc =>
    match hexDigitVal c with
    | none => none
    | some d => hexAccum cs (acc * 16 + d)

/-- Python `int(s, 16)` on a plain unsigned hex field: `none` models the
`ValueError` raised on an empty or non-hex string.  (Exotic accepted forms
such as a `0x` prefix, sign or underscores never occur in
`/proc/net/route` fields and are modelled as parse failures.) -/
def pyIntHex (s : String) : Option Nat :=
  match s.data with
  | [] => none
  | l => hexAccum l 0

/-- `socket.inet_ntoa`: dotted rendering of a list of byte values, joined
with `"."` in order. -/
def inetNtoa : List Nat → String
  | [] => ""
  | [b] => toString b
  | b :: rest => toString b ++ "." ++ inetNtoa rest

/-- `g.to_bytes(4, byteorder="little")`: the four bytes of `g`, least
significant first. -/
def leBytes4 (g : Nat) : List Nat :=
  [g % 256, g / 256 % 256, g / 65536 % 256, g / 16777216 % 256]

/-- Decoding of one gateway hex field:
`socket.inet_ntoa(int(gateway, 16).to_bytes(4, byteorder="little"))`.
`Except.error` models the uncaught Python exception: `ValueError` from
`int` on malformed hex, `OverflowError` from `to_bytes` when the value
does not fit in four bytes.  Neither is an `OSError`, so neither is caught
by `_get_default_gateway_linux`. -/
def decodeGateway (gw : String) : Except String String :=
  match pyIntHex gw with
  | none => .error "ValueError: invalid literal for int with base 16"
  | some g =>
    if g < 4294967296 then .ok (inetNtoa (leBytes4 g))
    else .error "OverflowError: int too big to convert"

/-- Python `str.split()` with no separator: split on runs of whitespace,
discarding empty fields.  Implemented over the character list; `acc` holds
the characters of the current field in reverse. -/
def splitFields : List Char → List Char → List String
  | [], acc => if acc.isEmpty then [] else [String.mk acc.reverse]
  | c :: cs, acc =>
    if c.isWhitespace then
      if acc.isEmpty then splitFields cs []
      else String.mk acc.reverse :: splitFields cs []
    else splitFields cs (c :: acc)

/-- `line.strip().split()`: since `split()` already ignores leading and
trailing whitespace, the composition equals splitting the raw line. -/
def pySplitWs (s : String) : List String :=
  splitFields s.data []

/-- The scan of `_get_default_gateway_linux` over the data lines of
`/proc/net/route` (the header line already dropped): skip lines with fewer
than three fields and lines whose destination field is not `00000000`;
decode the gateway field of the first match and return it. -/
def routeScan : List String → Except String (Option String)
  | [] => .ok none
  | line :: rest =>
    let fields := pySplitWs line
    if fields.length < 3 then routeScan rest
    else
      if fields.getD 1 "" ≠ "00000000" then routeScan rest
      else
        match decodeGateway (fields.getD 2 "") with
        | .error e => .error e
        | .ok ip => .ok (some ip)

/-- `_get_default_gateway_linux()`: `none` input models `OSError` when
opening `/proc/net/route` (caught, yielding `None`); otherwise the file's
lines are scanned after dropping the header (`f.readlines()[1:]`). -/
def getDefaultGatewayLinux (routeFile : Option (List String)) : Except String (Option String) :=
  match routeFile with
  | none => .ok none
  | some ls => routeScan (ls.drop 1)

/-! ### Endpoint resolver
(`_default_voicevox_host`, src/scripts/generate_voicevox_voices.py
lines 34-59) -/

/-- The environment a script run observes: the three `VOICEVOX_*`
environment variables (`none` = unset, `some ""` = set to the empty
string), which hostnames `socket.gethostbyname` can resolve, and the
content of `/proc/net/route` (`none` = unreadable). -/
structure Env where
  envHost : Option String
  envPort : Option String
  envUrl : Option String
  dnsResolves : String → Bool
  routeLines : Option (List String)

/-- Python truthiness of an optional string: `None` and `""` are falsy. -/
def truthy : Option String → Option String
  | some s => if s = "" then none else some s
  | none => none

/-- Python `a or b` on an optional string versus a default. -/
def pyOrStr (a : Option String) (b : String) : String :=
  match truthy a with
  | some s => s
  | none => b

/-- `_resolve_host_or_none(host)`: the host itself when
`socket.gethostbyname` succeeds, `None` when it raises `OSError`. -/
def resolveHostOrNone (env : Env) (host : String) : Option String :=
  if env.dnsResolves host then some host else none

/-- `_default_voicevox_host()`: explicit env override (if truthy), then the
Docker Desktop / WSL2 alias, then the Linux default gateway, finally
loopback.  `Except.error` propagates the uncaught exception of the
gateway decoder. -/
def defaultVoicevoxHost (env : Env) : Except String String :=
  match truthy env.envHost with
  | some h => .ok h
  | none =>
    match resolveHostOrNone env "host.docker.internal" with
    | some _ => .ok "host.docker.internal"
    | none =>
      match getDefaultGatewayLinux env.routeLines with
      | .error e => .error e
      | .ok (some gw) => .ok (if gw = "" then "127.0.0.1" else gw)
      | .ok none => .ok "127.0.0.1"

/-- Module-level default URL of generate_voicevox_voices.py (lines 57-59):
the host is discovered first (its exception propagates even when
`VOICEVOX_URL` is set), then
`VOICEVOX_URL or f"http://{host}:{port}"` with
`port = VOICEVOX_PORT or "50021"`. -/
def defaultVoicevoxUrl (env : Env) : Except String String :=
  match defaultVoicevoxHost env with
  | .error e => .error e
  | .ok host =>
    .ok (pyOrStr env.envUrl ("http://" ++ host ++ ":" ++ pyOrStr env.envPort "50021"))

/-- The URL the batch actually uses: the `--url` CLI flag when given,
otherwise the module-level default (which is computed in either case). -/
def effectiveUrl (env : Env) (cliUrl : Option String) : Except String String :=
  match defaultVoicevoxUrl env with
  | .error e => .error e
  | .ok d =>
    .ok (match cliUrl with
         | some u => u
         | none => d)

/-- Module-level default URL of generate_quote_voices.py (line 10):
`os.environ.get("VOICEVOX_URL") or "http://localhost:50021"`. -/
def quoteUrlDefault (envUrl : Option String) : String :=
  pyOrStr envUrl "http://localhost:50021"

/-! ### Abstract speech service and the three batch runners -/

/-- Behaviour of the external VOICEVOX service as observed by one run:
the transport outcome of the health-check request (`GET /speakers`
or `GET /version`), of `POST /audio_query` keyed by the text sent, and of
`POST /synthesis` keyed by the structured query sent.  Bodies of audio
responses have the abstract type `B`. -/
structure Service (B : Type) where
  health : TransportOutcome B
  queryOut : String → TransportOutcome (List (String × JVal))
  synthOut : List (String × JVal) → TransportOutcome B

/-- The fixed voice-line table `LINES` of generate_voicevox_voices.py
(lines 62-73). -/
def LINES : List (String × String) :=
  [("zunda_pon.wav", "ポンなのだ！"),
   ("zunda_chi.wav", "チーなのだ。もらうのだ。"),
   ("zunda_kan.wav", "カァーン！"),
   ("zunda_riichi.wav", "リーチなのだ。覚悟するのだ。"),
   ("zunda_ron.wav", "ロン！弱い、弱すぎるのだｗ"),
   ("zunda_tsumo.wav", "ツモ！文句ないのだ！"),
   ("zunda_tenpai.wav", "そろそろ上がれそうなのだ…"),
   ("zunda_slow.wav", "遅いのだ。早く打つのだ。"),
   ("zunda_dora.wav", "おっ、ドラ切ったのだ？"),
   ("zunda_start.wav", "よろしくなのだ。絶対負けないのだ。")]

/-- One item of the generate_voicevox_voices.py batch loop (lines 148-151):
`audio_query` then `synthesis`, either exception aborting the item. -/
def itemResult {B : Type} (svc : Service B) (text : String) : Except ReqErr B :=
  match doRequest (svc.queryOut text) with
  | .error e => .error e
  | .ok q => doRequest (svc.synthOut q)

/-- The batch loop of generate_voicevox_voices.py `main` (lines 145-156):
process the lines in order; on the first failing item print and
`sys.exit(4)`; every wav produced before the failure has already been
written.  Result: the files written (name, bytes) and the exit code
(0 on success). -/
def generateBatch {B : Type} (svc : Service B) : List (String × String) → List (String × B) × Nat
  | [] => ([], 0)
  | (filename, text) :: rest =>
    match itemResult svc text with
    | .error _ => ([], 4)
    | .ok wav =>
      let r := generateBatch svc rest
      ((filename, wav) :: r.1, r.2)

/-- Exit code chosen by the health-check exception handlers of
generate_voicevox_voices.py `main` (lines 131-143): `sys.exit(2)` for
`ConnectionError`/`Timeout`, `sys.exit(3)` for `HTTPError`. -/
def healthExitCode : ReqErr → Nat
  | .connectionError => 2
  | .timeoutError => 2
  | .httpError _ => 3

/-- `main` of generate_voicevox_voices.py after endpoint resolution:
`check_voicevox` gates the whole batch; on a health-check exception the
process exits with `healthExitCode` having written nothing. -/
def voicevoxMain {B : Type} (svc : Service B) : List (String × B) × Nat :=
  match doRequest svc.health with
  | .error e => ([], healthExitCode e)
  | .ok _ => generateBatch svc LINES

/-- The category table `QUOTES` of generate_quote_voices.py
(lines 13-58), in insertion order. -/
def QUOTES : List (String × List String) :=
  [("DEFENSE",
    ["うわ、リーチなのだ…。統計的にここは『オリ』が正解なのだ。君のその安そうな手に振り込むほど、ボクは馬鹿じゃないのだ。",
     "はいはい撤退撤退。君のリーチ、なんか『待ち』が透けて見えるのだ。そんな見え見えの罠にかかるわけないのだ。"]),
   ("OFFENSE",
    ["は？ そのリーチ、ブラフでしょ？ 期待値計算した結果、ボクのこの手は『全ツッパ』が最適解と出たのだ！！",
     "リスクリターンも計算できないの？ このドラは通る……いや、通す！！ 君の運だけのリーチなんて怖くないのだ！！"]),
   ("SAFE_TILE",
    ["はいはい、安パイ。君のリーチ、全然プレッシャーないんだけど？",
     "はいはい、安全策安全策。そんなにボクのロンが怖いのだ？ ビビり散らかしてるのが手に取るようにわかるのだｗ"]),
   ("EARLY_GAME",
    ["ふふん、手牌が育ってきたのだ。今のうちに逃げる準備したほうがいいんじゃない？ 後で泣いても知らないのだ。",
     "ボクの配牌、良すぎて笑いが止まらないのだ。君の手牌、なんかゴミ溜めみたいになってない？"]),
   ("DRAW_TENPAI",
    ["危なかったねー。シミュレーションでは次のツモでボクが上がってたのだ。君の寿命が少し伸びただけなのだ。"]),
   ("DRAW_NOTEN",
    ["……あえてテンパイを取らなかったのだ。これが『回し打ち』の極意。放銃回避を最優先した高度な戦術……君には理解できない高尚なプレイなのだ。"]),
   ("WIN_SMALL",
    ["はい、ロン！ ……え、安い？ 点数じゃないのだ、君の『流れ』を断ち切るのが目的なのだ！ ざぁこ♡"]),
   ("WIN_BIG",
    ["これが実力、これが知性なのだ！！ 君の非効率な打牌に対する、統計学からの鉄槌なのだ！！ 点棒置いてさっさと席を立つのだ！"]),
   ("GAME_WIN",
    ["当然の結果なのだ。君とボクとでは、積んでるCPUのスペックが違いすぎたのだ。悔しかったら課金して出直してくるのだ！ まあ、何度やってもボクが勝つけどね！ お疲れ様、養分さん！"]),
   ("PLAYER_WIN_LOW",
    ["えっ、それだけ？ その点数のためにボクの手を蹴ったの？ コスパ悪すぎなのだ。",
     "必死にアガってそれ？ 駄菓子代にもならないのだｗ"]),
   ("PLAYER_WIN_HIGH",
    ["はいはい、よかったねー。すごいすごい（棒）。これで満足なのだ？",
     "へー、高打点？ おめでとうなのだ。……まさか、たかがゲームの点数で人生勝った気になってないよね？",
     "あーはいはい、強い強い。運だけは一人前なのだ。一応拍手してあげるのだ。（パチパチパチ）"]),
   ("PLAYER_WIN_GENERIC",
    ["はいはいおめでとう。君の人生の運、今ので全部使い果たしたのだw",
     "まあ、たまには勝たせてあげないとね。これは『接待』なのだ。"])]

/-- The per-category tuning table `VOICE_PARAMS` of
generate_quote_voices.py (lines 60-64). -/
def VOICE_PARAMS : List (String × List (String × JVal)) :=
  [("PLAYER_WIN_LOW", [("speedScale", .num 1.2), ("pitchScale", .num 0.1)]),
   ("PLAYER_WIN_HIGH",
    [("intonationScale", .num 0.5), ("speedScale", .num 1.1), ("pitchScale", .num 0.0)]),
   ("PLAYER_WIN_GENERIC", [("speedScale", .num 1.3), ("intonationScale", .num 1.5)])]

/-- Query actually sent to the synthesis step by generate_quote_voices.py
(lines 107-109): the audio-query result, updated in place with the
category's tuning dict when `VOICE_PARAMS` has one. -/
def tunedQuery (cat : String) (q : List (String × JVal)) : List (String × JVal) :=
  match dlookup VOICE_PARAMS cat with
  | some tuning => dictUpdate q tuning
  | none => q

/-- Inner loop of generate_quote_voices.py `main` (lines 102-116) over the
lines of one category, `i` being the running `enumerate` index: returns
the files written, the filenames appended to the category's manifest
entry, and the first uncaught exception if any (the script re-raises after
printing). -/
def quoteCategory {B : Type} (svc : Service B) (cat : String) :
    List String → Nat → List (String × B) × List String × Option ReqErr
  | [], _ => ([], [], none)
  | line :: rest, i =>
    match doRequest (svc.queryOut line) with
    | .error e => ([], [], some e)
    | .ok q =>
      match doRequest (svc.synthOut (tunedQuery cat q)) with
      | .error e => ([], [], some e)
      | .ok wav =>
        let filename := cat ++ "_" ++ toString i ++ ".wav"
        let r := quoteCategory svc cat rest (i + 1)
        ((filename, wav) :: r.1, filename :: r.2.1, r.2.2)

/-- Outer loop of generate_quote_voices.py `main` (lines 100-116) over the
category table: categories in order, stopping at the first exception;
returns all files written, the in-memory manifest entries accumulated, and
the escaping exception if any. -/
def quoteBatch {B : Type} (svc : Service B) :
    List (String × List String) → List (String × B) × List (String × List String) × Option ReqErr
  | [] => ([], [], none)
  | (cat, ls) :: rest =>
    let c := quoteCategory svc cat ls 0
    match c.2.2 with
    | some e => (c.1, [(cat, c.2.1)], some e)
    | none =>
      let r := quoteBatch svc rest
      (c.1 ++ r.1, (cat, c.2.1) :: r.2.1, r.2.2)

/-- Observable outcome of one generate_quote_voices.py run: the audio
files written, the content of `manifest.json` if it was written (it is
written only on line 118, after the loop finishes), the uncaught exception
(which makes the process exit nonzero), and whether the version
health-check printed its warning. -/
structure QuoteRun (B : Type) where
  files : List (String × B)
  manifestFile : Option (List (String × List String))
  raised : Option ReqErr
  healthWarn : Bool
deriving DecidableEq

/-- `main` of generate_quote_voices.py on an arbitrary category table:
the version check (lines 91-96) catches every exception and only prints a
warning, so the batch runs regardless of its outcome; `manifest.json` is
written only when no exception escaped the loop. -/
def quoteMain {B : Type} (svc : Service B) (table : List (String × List String)) : QuoteRun B :=
  let b := quoteBatch svc table
  { files := b.1
    manifestFile :=
      match b.2.2 with
      | some _ => none
      | none => some b.2.1
    raised := b.2.2
    healthWarn := exceptFailed (doRequest svc.health) }

/-- The actual generate_quote_voices.py run, over the literal `QUOTES`
table. -/
def quoteScriptMain {B : Type} (svc : Service B) : QuoteRun B :=
  quoteMain svc QUOTES

/-! ### update_voices.py -/

/-- One entry of the `voices` table of update_voices.py. -/
structure VoiceData where
  filename : String
  text : String
  speed : ℚ
  pitch : ℚ
  intonation : ℚ
deriving DecidableEq

/-- The `voices` table of update_voices.py (lines 9-33). -/
def voices : List VoiceData :=
  [{ filename := "SAFE_TILE_1.wav"
     text := "はいはい、あんぜんさく、あんぜんさく。そんなにボクのロンが怖いのだ？ ビビり散らかしてるのが手に取るようにわかるのだわら"
     speed := 1.2, pitch := 0.0, intonation := 1.2 },
   { filename := "WIN_SMALL_TSUMO_0.wav"
     text := "あがり。安い？ 関係ないのだ。早あがりで君の親番を流すのが、デジタル麻雀の基本なのだ。"
     speed := 1.1, pitch := 0.0, intonation := 1.1 },
   { filename := "GAME_WIN_1.wav"
     text := "圧倒的勝利なのだ！ 人類の知能なんて、所詮この程度なのだ。ボクに勝とうなんて100万年早かったね。"
     speed := 1.2, pitch := 0.1, intonation := 1.3 },
   { filename := "GAME_WIN_2.wav"
     text := "対戦ありがとうございましたー。君の打牌データ、いい学習サンプルになったよ。養分になってくれて感謝するのだ。"
     speed := 1.1, pitch := 0.0, intonation := 0.8 }]

/-- The three in-place assignments of update_voices.py `generate_wav`
(lines 38-40): `q["speedScale"]`, `q["pitchScale"]`,
`q["intonationScale"]` set to the entry's values. -/
def updateVoicesTuned (q : List (String × JVal)) (v : VoiceData) : List (String × JVal) :=
  setItem (setItem (setItem q "speedScale" (.num v.speed))
    "pitchScale" (.num v.pitch)) "intonationScale" (.num v.intonation)

/-- `generate_wav` of update_voices.py (lines 35-50): query (no status
check), tune, synthesize (no status check), write the response content to
the entry's file.  Returns the (filename, bytes) written, or the uncaught
exception. -/
def generateWav {B : Type} (svc : Service B) (v : VoiceData) : Except ReqErr (String × B) :=
  match doRequestRaw (svc.queryOut v.text) with
  | .error e => .error e
  | .ok q =>
    match doRequestRaw (svc.synthOut (updateVoicesTuned q v)) with
    | .error e => .error e
    | .ok content => .ok (v.filename, content)

/-- The top-level loop of update_voices.py (lines 52-53): `generate_wav`
for each entry in order; an uncaught exception aborts the run (nonzero
exit), files written before it remain. -/
def updateVoicesLoop {B : Type} (svc : Service B) : List VoiceData → List (String × B) × Option ReqErr
  | [] => ([], none)
  | v :: rest =>
    match generateWav svc v with
    | .error e => ([], some e)
    | .ok fb =>
      let r := updateVoicesLoop svc rest
      (fb :: r.1, r.2)

/-- The whole update_voices.py run over its literal `voices` table. -/
def updateVoicesMain {B : Type} (svc : Service B) : List (String × B) × Option ReqErr :=
  updateVoicesLoop svc voices

/-! ### Network call descriptors (timeouts) -/

/-- One HTTP call site: the endpoint path it targets and the `timeout=`
argument it passes to `requests` (in seconds), `none` when the call passes
no timeout at all (so the request may block indefinitely). -/
structure NetCall where
  path : String
  timeoutSec : Option Nat
deriving DecidableEq

/-- The call sites of generate_voicevox_voices.py: `check_voicevox`
(line 77, `timeout=10`), `audio_query` (line 85, `timeout=30`),
`synthesis` (line 96, `timeout=60`). -/
def voicevoxScriptCalls : List NetCall :=
  [{ path := "/speakers", timeoutSec := some 10 },
   { path := "/audio_query", timeoutSec := some 30 },
   { path := "/synthesis", timeoutSec := some 60 }]

/-- The call sites of generate_quote_voices.py: the version check
(line 92, `timeout=10`), `audio_query` (line 68, `timeout=30`),
`synthesis` (line 74, `timeout=60`). -/
def quoteScriptCalls : List NetCall :=
  [{ path := "/version", timeoutSec := some 10 },
   { path := "/audio_query", timeoutSec := some 30 },
   { path := "/synthesis", timeoutSec := some 60 }]

/-- The call sites of update_voices.py `generate_wav` (lines 37 and
41-46): neither `requests.post` passes any `timeout=`. -/
def updateVoicesCalls : List NetCall :=
  [{ path := "/audio_query", timeoutSec := none },
   { path := "/synthesis", timeoutSec := none }]

/-! ### Claim C1 — tuning parameters overwrite exactly the supplied fields -/

/-- C1: for every tuning set supplied with a voice request, the structured
query passed to the synthesis step is the audio-query result with exactly
the supplied fields overwritten to the supplied values and every other
field unchanged.  First two conjuncts: the `query.update(tuning)` of
generate_quote_voices.py (the query sent is `tunedQuery`, i.e.
`dictUpdate` of the audio-query result).  Third conjunct: the three
explicit assignments of update_voices.py `generate_wav`
(`updateVoicesTuned`). -/
theorem tuning_overrides_exactly_supplied_fields
    (q t : List (String × JVal)) (ht : nodupKeys t = true) :
    (∀ k v, dlookup t k = some v → dlookup (dictUpdate q t) k = some v) ∧
    (∀ k, dlookup t k = none → dlookup (dictUpdate q t) k = dlookup q k) ∧
    (∀ v : VoiceData,
      dlookup (updateVoicesTuned q v) "speedScale" = some (.num v.speed) ∧
      dlookup (updateVoicesTuned q v) "pitchScale" = some (.num v.pitch) ∧
      dlookup (updateVoicesTuned q v) "intonationScale" = some (.num v.intonation) ∧
      ∀ k, k ≠ "speedScale" → k ≠ "pitchScale" → k ≠ "intonationScale" →
        dlookup (updateVoicesTuned q v) k = dlookup q k) := by
  refine ⟨?_, ?_, ?_⟩
  · intro k v h
    exact dlookup_dictUpdate_of_some t k v q ht h
  · intro k h
    exact dlookup_dictUpdate_of_none t k q h
  · intro v
    refine ⟨?_, ?_, ?_, ?_⟩
    · unfold updateVoicesTuned
      rw [dlookup_setItem_other _ _ _ _ (by decide),
        dlookup_setItem_other _ _ _ _ (by decide)]
      exact dlookup_setItem_self _ _ _
    · unfold updateVoicesTuned
      rw [dlookup_setItem_other _ _ _ _ (by decide)]
      exact dlookup_setItem_self _ _ _
    · exact dlookup_setItem_self _ _ _
    · intro k h1 h2 h3
      unfold updateVoicesTuned
      rw [dlookup_setItem_other _ _ _ _ h3, dlookup_setItem_other _ _ _ _ h2,
        dlookup_setItem_other _ _ _ _ h1]

/-- A representative audio-query response body: the tuning scales at their
service defaults plus fields the tuning never touches. -/
def sampleQuery : List (String × JVal) :=
  [("accent_phrases", .other 0), ("speedScale", .num 1), ("pitchScale", .num 0),
   ("intonationScale", .num 1), ("volumeScale", .num 1), ("outputSamplingRate", .num 24000)]

/-- The `PLAYER_WIN_LOW` tuning set of `VOICE_PARAMS`. -/
def lowTuning : List (String × JVal) :=
  [("speedScale", .num 1.2), ("pitchScale", .num 0.1)]

/-- Witness for C1 at a concrete query and the `PLAYER_WIN_LOW` tuning:
the supplied fields take the tuning values, an untouched field keeps its
queried value, and the update_voices.py assignment chain leaves
`outputSamplingRate` alone. -/
theorem tuning_overrides_exactly_supplied_fields_witness :
    dlookup (dictUpdate sampleQuery lowTuning) "speedScale" = some (.num 1.2) ∧
    dlookup (dictUpdate sampleQuery lowTuning) "volumeScale" = some (.num 1) ∧
    dlookup (updateVoicesTuned sampleQuery ⟨"a.wav", "t", 1.1, 0, 1.1⟩) "outputSamplingRate"
      = some (.num 24000) := by
  have h := tuning_overrides_exactly_supplied_fields sampleQuery lowTuning (by decide)
  refine ⟨h.1 "speedScale" (.num 1.2) rfl, h.2.1 "volumeScale" rfl, ?_⟩
  have h3 := (h.2.2 ⟨"a.wav", "t", 1.1, 0, 1.1⟩).2.2.2 "outputSamplingRate"
    (by decide) (by decide) (by decide)
  exact h3.trans rfl

/-! ### Claim C2 — the gateway hex field is decoded little-endian -/

/-- C2: for every routing-table line whose destination field is
`00000000`, the decoder interprets the gateway hex field as a
little-endian 32-bit address: the first dotted component is the LOW byte
of the parsed integer.  In particular (see the witness) gateway
`0100007F` decodes to `127.0.0.1`. -/
theorem gateway_decoded_little_endian
    (line : String) (rest : List String) (gw : String) (g : Nat)
    (hlen : ¬ (pySplitWs line).length < 3)
    (hdst : (pySplitWs line).getD 1 "" = "00000000")
    (hgw : (pySplitWs line).getD 2 "" = gw)
    (hparse : pyIntHex gw = some g)
    (hrange : g < 4294967296) :
    routeScan (line :: rest) =
      .ok (some (toString (g % 256) ++ "." ++ toString (g / 256 % 256) ++ "." ++
        toString (g / 65536 % 256) ++ "." ++ toString (g / 16777216 % 256))) := by
  have hdec : decodeGateway gw = .ok (inetNtoa (leBytes4 g)) := by
    unfold decodeGateway
    rw [hparse]
    show (if g < 4294967296 then Except.ok (inetNtoa (leBytes4 g))
      else Except.error "OverflowError: int too big to convert") = _
    rw [if_pos hrange]
  show (if (pySplitWs line).length < 3 then routeScan rest
    else if (pySplitWs line).getD 1 "" ≠ "00000000" then routeScan rest
    else match decodeGateway ((pySplitWs line).getD 2 "") with
      | .error e => .error e
      | .ok ip => .ok (some ip)) = _
  rw [if_neg hlen, if_neg (by rw [hdst]; exact fun hh => hh rfl), hgw, hdec]
  show Except.ok (some (inetNtoa (leBytes4 g))) = _
  simp [inetNtoa, leBytes4, String.append_assoc]

/-- A default-route line as it appears in `/proc/net/route` for a gateway
stored little-endian as `0100007F`. -/
def sampleRouteLine : String :=
  "eth0\t00000000\t0100007F\t0003\t0\t0\t100\t00000000\t0\t0\t0"

/-- Witness for C2: the full `_get_default_gateway_linux` scan on a route
file whose any-route entry has gateway `0100007F` yields `127.0.0.1`. -/
theorem gateway_decoded_little_endian_witness :
    getDefaultGatewayLinux (some ["Iface\tDestination\tGateway\tFlags", sampleRouteLine])
      = .ok (some "127.0.0.1") := by
  have h := gateway_decoded_little_endian sampleRouteLine [] "0100007F" 16777343
    (by decide) (by decide) (by decide) (by decide) (by decide)
  show routeScan [sampleRouteLine] = .ok (some "127.0.0.1")
  rw [h]
  rfl

/-! ### Claim C3 — loopback fallback; totality of the resolver -/

/-- An environment with no override, no resolvable alias, and a route file
whose any-route gateway field is not valid hex. -/
def envMalformedRoute : Env :=
  { envHost := none, envPort := none, envUrl := none
    dnsResolves := fun _ => false
    routeLines := some ["Iface\tDestination\tGateway\tFlags", "eth0\t00000000\tZZZZZZZZ\t0003"] }

/-- C3 counterexample: the resolver does NOT return an address for every
input environment.  `int(gateway, 16)` raises `ValueError` on a malformed
gateway field, which `except OSError` does not catch, so
`_default_voicevox_host` propagates an exception instead of returning. -/
theorem resolver_raises_on_malformed_gateway_hex :
    exceptFailed (defaultVoicevoxHost envMalformedRoute) = true := rfl

/-- C3 (amended): with no host override, an unresolvable alias and no
default-gateway entry found, the resolver returns the loopback address
`127.0.0.1`; and the resolver returns some address without raising for
every environment in which the route scan itself does not raise — not for
every environment, since a malformed gateway hex field makes it raise. -/
theorem resolver_loopback_fallback_and_totality (env : Env) :
    (env.envHost = none → env.dnsResolves "host.docker.internal" = false →
      getDefaultGatewayLinux env.routeLines = .ok none →
      defaultVoicevoxHost env = .ok "127.0.0.1") ∧
    (∀ r, getDefaultGatewayLinux env.routeLines = .ok r →
      ∃ s, defaultVoicevoxHost env = .ok s) := by
  constructor
  · intro h1 h2 h3
    simp [defaultVoicevoxHost, h1, truthy, resolveHostOrNone, h2, h3]
  · intro r hr
    rcases htr : truthy env.envHost with _ | h
    · rcases hdns : resolveHostOrNone env "host.docker.internal" with _ | x
      · cases r with
        | none => exact ⟨"127.0.0.1", by simp [defaultVoicevoxHost, htr, hdns, hr]⟩
        | some gw =>
          exact ⟨if gw = "" then "127.0.0.1" else gw,
            by simp [defaultVoicevoxHost, htr, hdns, hr]⟩
      · exact ⟨"host.docker.internal", by simp [defaultVoicevoxHost, htr, hdns]⟩
    · exact ⟨h, by simp [defaultVoicevoxHost, htr]⟩

/-- An environment in which every discovery step comes up empty. -/
def envNoAnswers : Env :=
  { envHost := none, envPort := none, envUrl := none
    dnsResolves := fun _ => false
    routeLines := none }

/-- Witness for the amended C3: with nothing discoverable the resolver
returns the loopback address. -/
theorem resolver_loopback_fallback_witness :
    defaultVoicevoxHost envNoAnswers = .ok "127.0.0.1" :=
  (resolver_loopback_fallback_and_totality envNoAnswers).1 rfl rfl rfl

/-! ### Claim C4 — overrides returned verbatim; endpoint precedence -/

/-- An environment whose host override is supplied but empty, with the
container alias resolvable. -/
def envEmptyHostOverride : Env :=
  { envHost := some "", envPort := none, envUrl := none
    dnsResolves := fun _ => true
    routeLines := none }

/-- C4 counterexample: an override value supplied via the environment is
NOT always returned verbatim.  `if env_host:` treats the supplied empty
string as absent, so the resolver falls through to discovery and returns
the alias instead of the supplied value. -/
theorem empty_override_not_returned_verbatim :
    envEmptyHostOverride.envHost = some "" ∧
    defaultVoicevoxHost envEmptyHostOverride = .ok "host.docker.internal" ∧
    "host.docker.internal" ≠ "" := ⟨rfl, rfl, by decide⟩

/-- C4 (amended): every NON-EMPTY override is returned verbatim regardless
of DNS or routing state (an empty-string override is treated as unset),
and the precedence is explicit URL, then host+port overrides, then
discovery, then loopback: a truthy `VOICEVOX_URL` wins; otherwise the URL
is assembled from the discovered host and `VOICEVOX_PORT or "50021"`; a
`--url` CLI value overrides the computed default. -/
theorem nonempty_overrides_verbatim_and_precedence :
    (∀ (env : Env) (h : String), env.envHost = some h → h ≠ "" →
      defaultVoicevoxHost env = .ok h) ∧
    (∀ (env : Env) (u host : String), env.envUrl = some u → u ≠ "" →
      defaultVoicevoxHost env = .ok host →
      defaultVoicevoxUrl env = .ok u) ∧
    (∀ (env : Env) (host : String), truthy env.envUrl = none →
      defaultVoicevoxHost env = .ok host →
      defaultVoicevoxUrl env = .ok ("http://" ++ host ++ ":" ++ pyOrStr env.envPort "50021")) ∧
    (∀ (env : Env) (u d : String), defaultVoicevoxUrl env = .ok d →
      effectiveUrl env (some u) = .ok u ∧ effectiveUrl env none = .ok d) := by
  refine ⟨?_, ?_, ?_, ?_⟩
  · intro env h hh hne
    simp [defaultVoicevoxHost, hh, truthy, hne]
  · intro env u host hu hune hhost
    simp [defaultVoicevoxUrl, hhost, pyOrStr, truthy, hu, hune]
  · intro env host hnone hhost
    simp [defaultVoicevoxUrl, hhost, pyOrStr, hnone]
  · intro env u d hd
    constructor
    · simp [effectiveUrl, hd]
    · simp [effectiveUrl, hd]

/-- An environment with non-empty host and URL overrides. -/
def envOverrides : Env :=
  { envHost := some "myhost", envPort := some "1234", envUrl := some "http://example:9999"
    dnsResolves := fun _ => false
    routeLines := none }

/-- Witness for the amended C4: the non-empty host override and the
non-empty URL override are both returned verbatim. -/
theorem nonempty_overrides_verbatim_witness :
    defaultVoicevoxHost envOverrides = .ok "myhost" ∧
    defaultVoicevoxUrl envOverrides = .ok "http://example:9999" := by
  have h := nonempty_overrides_verbatim_and_precedence
  have hhost := h.1 envOverrides "myhost" rfl (by decide)
  exact ⟨hhost, h.2.1 envOverrides "http://example:9999" "myhost" rfl (by decide) hhost⟩

/-! ### Claim C5 — behaviour on a failed pre-batch health check -/

/-- A service whose health endpoint refuses connections while query and
synthesis work normally. -/
def svcHealthDown : Service Nat :=
  { health := .connError
    queryOut := fun _ => .response 200 [("speedScale", .num 1)]
    synthOut := fun _ => .response 200 7 }

/-- C5 counterexample: it is NOT true that every run with a failing
pre-batch health check aborts before per-item generation.  In
generate_quote_voices.py the failed version check only prints a warning
(`except Exception` at lines 95-96) and the batch still processes all 20
voice lines and writes the manifest. -/
theorem quote_variant_generates_after_health_failure :
    (quoteScriptMain svcHealthDown).healthWarn = true ∧
    (quoteScriptMain svcHealthDown).raised = none ∧
    (quoteScriptMain svcHealthDown).files.length = 20 ∧
    (quoteScriptMain svcHealthDown).manifestFile.isSome = true := ⟨rfl, rfl, rfl, rfl⟩

/-- C5 (amended): only generate_voicevox_voices.py aborts on a failed
health check — with exit code 2 on connection failure or timeout and exit
code 3 on an HTTP-status failure, in both cases before any voice-line item
is processed (no file is written, whatever the per-item outcomes); in
generate_quote_voices.py the failed version check merely warns and the
batch outcome is unchanged. -/
theorem health_check_failure_behavior {B : Type} (svc : Service B) :
    ((svc.health = .connError ∨ svc.health = .timeoutError) → voicevoxMain svc = ([], 2)) ∧
    (∀ (s : Nat) (b : B), svc.health = .response s b → 400 ≤ s → s < 600 →
      voicevoxMain svc = ([], 3)) ∧
    (∀ h' : TransportOutcome B,
      (quoteMain { svc with health := h' } QUOTES).files = (quoteMain svc QUOTES).files ∧
      (quoteMain { svc with health := h' } QUOTES).manifestFile
        = (quoteMain svc QUOTES).manifestFile ∧
      (quoteMain { svc with health := h' } QUOTES).raised = (quoteMain svc QUOTES).raised) := by
  refine ⟨?_, ?_, ?_⟩
  · rintro (h | h) <;> simp [voicevoxMain, h, doRequest, healthExitCode]
  · intro s b h h4 h6
    simp [voicevoxMain, h, doRequest, raiseForStatus, h4, h6, healthExitCode]
  · intro h'
    exact ⟨rfl, rfl, rfl⟩

/-- Witness for the amended C5: with the health endpoint down the
voicevox-variant batch exits 2 with nothing written. -/
theorem health_check_failure_behavior_witness :
    voicevoxMain svcHealthDown = ([], 2) :=
  (health_check_failure_behavior svcHealthDown).1 (Or.inl rfl)

/-! ### Claim C6 — first per-item failure aborts the batch -/

theorem generateBatch_append_ok {B : Type} (svc : Service B)
    (pre suffix : List (String × String))
    (hok : ∀ p ∈ pre, exceptFailed (itemResult svc p.2) = false) :
    generateBatch svc (pre ++ suffix) =
      ((generateBatch svc pre).1 ++ (generateBatch svc suffix).1,
       (generateBatch svc suffix).2) := by
  induction pre with
  | nil => simp [generateBatch]
  | cons p rest ih =>
    obtain ⟨fn, tx⟩ := p
    have hp : exceptFailed (itemResult svc tx) = false := hok (fn, tx) (by simp)
    have ih' := ih (fun p hmem => hok p (List.mem_cons_of_mem _ hmem))
    rcases hres : itemResult svc tx with e | wav
    · rw [hres] at hp
      simp [exceptFailed] at hp
    · show generateBatch svc ((fn, tx) :: (rest ++ suffix)) = _
      have hl : generateBatch svc ((fn, tx) :: (rest ++ suffix)) =
          ((fn, wav) :: (generateBatch svc (rest ++ suffix)).1,
           (generateBatch svc (rest ++ suffix)).2) := by
        simp only [generateBatch, hres]
      have hr : generateBatch svc ((fn, tx) :: rest) =
          ((fn, wav) :: (generateBatch svc rest).1, (generateBatch svc rest).2) := by
        simp only [generateBatch, hres]
      rw [hl, ih', hr]
      simp

/-- Categories before the failing one contribute their files unchanged. -/
theorem quoteBatch_append_ok {B : Type} (svc : Service B)
    (pre suffix : List (String × List String))
    (hok : ∀ c ∈ pre, (quoteCategory svc c.1 c.2 0).2.2 = none) :
    quoteBatch svc (pre ++ suffix) =
      ((quoteBatch svc pre).1 ++ (quoteBatch svc suffix).1,
       (quoteBatch svc pre).2.1 ++ (quoteBatch svc suffix).2.1,
       (quoteBatch svc suffix).2.2) := by
  induction pre with
  | nil => simp [quoteBatch]
  | cons c rest ih =>
    obtain ⟨cat, ls⟩ := c
    have hc : (quoteCategory svc cat ls 0).2.2 = none := hok (cat, ls) (by simp)
    have ih' := ih (fun c hmem => hok c (List.mem_cons_of_mem _ hmem))
    show quoteBatch svc ((cat, ls) :: (rest ++ suffix)) = _
    have hl : quoteBatch svc ((cat, ls) :: (rest ++ suffix)) =
        ((quoteCategory svc cat ls 0).1 ++ (quoteBatch svc (rest ++ suffix)).1,
         (cat, (quoteCategory svc cat ls 0).2.1) :: (quoteBatch svc (rest ++ suffix)).2.1,
         (quoteBatch svc (rest ++ suffix)).2.2) := by
      simp only [quoteBatch, hc]
    have hr : quoteBatch svc ((cat, ls) :: rest) =
        ((quoteCategory svc cat ls 0).1 ++ (quoteBatch svc rest).1,
         (cat, (quoteCategory svc cat ls 0).2.1) :: (quoteBatch svc rest).2.1,
         (quoteBatch svc rest).2.2) := by
      simp only [quoteBatch, hc]
    rw [hl, ih', hr]
    simp [List.append_assoc]

/-- C6: in both abort-on-first-failure variants, when the items before `k`
succeed and item `k` fails (query or synthesis raising a connection error,
timeout, or HTTP error), the run exits nonzero — code 4 in
generate_voicevox_voices.py, an uncaught exception (hence nonzero exit and
no manifest) in generate_quote_voices.py — no later item is processed
(the result does not depend on `post`), and the files of the items before
`k` are exactly the ones already written. -/
theorem first_failure_aborts_batch {B : Type} (svc : Service B) :
    (∀ (pre : List (String × String)) (item : String × String)
        (post : List (String × String)),
      (∀ p ∈ pre, exceptFailed (itemResult svc p.2) = false) →
      exceptFailed (itemResult svc item.2) = true →
      generateBatch svc (pre ++ item :: post) = ((generateBatch svc pre).1, 4)) ∧
    (∀ (preT : List (String × List String)) (cat : String) (ls : List String)
        (post : List (String × List String)) (e : ReqErr),
      (∀ c ∈ preT, (quoteCategory svc c.1 c.2 0).2.2 = none) →
      (quoteCategory svc cat ls 0).2.2 = some e →
      (quoteMain svc (preT ++ (cat, ls) :: post)).files =
        (quoteBatch svc preT).1 ++ (quoteCategory svc cat ls 0).1 ∧
      (quoteMain svc (preT ++ (cat, ls) :: post)).raised = some e ∧
      (quoteMain svc (preT ++ (cat, ls) :: post)).manifestFile = none) := by
  constructor
  · intro pre item post hok hfail
    obtain ⟨fn, tx⟩ := item
    rcases hres : itemResult svc tx with e | wav
    · rw [generateBatch_append_ok svc pre ((fn, tx) :: post) hok]
      simp only [generateBatch, hres]
      simp
    · rw [hres] at hfail
      simp [exceptFailed] at hfail
  · intro preT cat ls post e hok hfail
    have hb := quoteBatch_append_ok svc preT ((cat, ls) :: post) hok
    have hbc : quoteBatch svc ((cat, ls) :: post) =
        ((quoteCategory svc cat ls 0).1,
         [(cat, (quoteCategory svc cat ls 0).2.1)], some e) := by
      simp only [quoteBatch, hfail]
    refine ⟨?_, ?_, ?_⟩
    · show (quoteBatch svc (preT ++ (cat, ls) :: post)).1 = _
      rw [hb, hbc]
    · show (quoteBatch svc (preT ++ (cat, ls) :: post)).2.2 = _
      rw [hb, hbc]
    · show (match (quoteBatch svc (preT ++ (cat, ls) :: post)).2.2 with
        | some _ => (none : Option (List (String × List String)))
        | none => some (quoteBatch svc (preT ++ (cat, ls) :: post)).2.1) = none
      rw [hb, hbc]

/-- A service for which only the text `"bad"` fails: its query step
returns HTTP 500. -/
def svcFailsOnBad : Service Nat :=
  { health := .response 200 0
    queryOut := fun t => if t = "bad" then .response 500 [] else .response 200 []
    synthOut := fun _ => .response 200 3 }

/-- Witness for C6: in a three-item batch whose second item gets HTTP 500
on the query step, the run exits 4 and exactly the first item's file was
written. -/
theorem first_failure_aborts_batch_witness :
    generateBatch svcFailsOnBad ([("a.wav", "x")] ++ ("b.wav", "bad") :: [("c.wav", "y")]) =
      ([("a.wav", 3)], 4) := by
  rw [(first_failure_aborts_batch svcFailsOnBad).1 [("a.wav", "x")] ("b.wav", "bad")
    [("c.wav", "y")] (by decide) (by decide)]
  rfl

/-! ### Claim C7 — error classification of the synthesis client -/

/-- A service answering HTTP 500 with body `99` on every synthesis call. -/
def svcHttp500Synth : Service Nat :=
  { health := .response 200 0
    queryOut := fun _ => .response 200 [("speedScale", .num 1)]
    synthOut := fun _ => .response 500 99 }

/-- C7 counterexample: a non-success response IS silently treated as audio
data in update_voices.py, which never checks the status: with every
synthesis call answering HTTP 500 with body 99, all four voice files are
written containing that error body and the run finishes without error. -/
theorem update_voices_writes_error_body_as_audio :
    (updateVoicesMain svcHttp500Synth).2 = none ∧
    (updateVoicesMain svcHttp500Synth).1 =
      [("SAFE_TILE_1.wav", 99), ("WIN_SMALL_TSUMO_0.wav", 99),
       ("GAME_WIN_1.wav", 99), ("GAME_WIN_2.wav", 99)] := ⟨rfl, rfl⟩

/-- C7 (amended): in the two scripts under `src/scripts/` every query and
synthesis call fails with a transport error on connection failure or
timeout and with an HTTP error on a 4xx/5xx status, and a body is returned
only from a response whose status is not 4xx/5xx; update_voices.py however
performs no status check, so its calls return the body of ANY response. -/
theorem scripts_raise_on_transport_and_http_errors {B : Type} :
    (doRequest (.connError : TransportOutcome B) = .error .connectionError) ∧
    (doRequest (.timeoutError : TransportOutcome B) = .error .timeoutError) ∧
    (∀ (s : Nat) (b : B), 400 ≤ s → s < 600 →
      doRequest (.response s b) = .error (.httpError s)) ∧
    (∀ (t : TransportOutcome B) (b : B), doRequest t = .ok b →
      ∃ s, t = .response s b ∧ ¬ (400 ≤ s ∧ s < 600)) ∧
    (∀ (s : Nat) (b : B), doRequestRaw (.response s b) = .ok b) := by
  refine ⟨rfl, rfl, ?_, ?_, fun s b => rfl⟩
  · intro s b h4 h6
    simp [doRequest, raiseForStatus, h4, h6]
  · intro t b h
    cases t with
    | connError => simp [doRequest] at h
    | timeoutError => simp [doRequest] at h
    | response s b' =>
      by_cases hc : 400 ≤ s ∧ s < 600
      · simp [doRequest, raiseForStatus, hc] at h
      · refine ⟨s, ?_, hc⟩
        simp [doRequest, raiseForStatus, hc] at h
        rw [h]

/-- Witness for the amended C7: a 503 on the query step raises an HTTP
error in the scripts. -/
theorem scripts_raise_on_http_errors_witness :
    doRequest (.response 503 (0 : Nat)) = .error (.httpError 503) :=
  (scripts_raise_on_transport_and_http_errors).2.2.1 503 0 (by decide) (by decide)

/-! ### Claim C8 — the manifest maps categories to ordered filenames -/

/-- The manifest a fully successful run must produce: each category of the
table mapped to one `{category}_{index}.wav` name per voice line, indices
in input order. -/
def expectedManifest (table : List (String × List String)) : List (String × List String) :=
  table.map (fun c =>
    (c.1, (List.range c.2.length).map (fun i => c.1 ++ "_" ++ toString i ++ ".wav")))

theorem quoteCategory_all_ok {B : Type} (svc : Service B) (cat : String)
    (hq : ∀ s, exceptFailed (doRequest (svc.queryOut s)) = false)
    (hs : ∀ q, exceptFailed (doRequest (svc.synthOut q)) = false) :
    ∀ (ls : List String) (i : Nat),
      (quoteCategory svc cat ls i).2.1 =
        (List.range' i ls.length 1).map (fun j => cat ++ "_" ++ toString j ++ ".wav") ∧
      (quoteCategory svc cat ls i).2.2 = none ∧
      (quoteCategory svc cat ls i).1.map Prod.fst =
        (List.range' i ls.length 1).map (fun j => cat ++ "_" ++ toString j ++ ".wav") := by
  intro ls
  induction ls with
  | nil => intro i; exact ⟨rfl, rfl, rfl⟩
  | cons line rest ih =>
    intro i
    rcases hq1 : doRequest (svc.queryOut line) with e | q
    · have hh := hq line
      rw [hq1] at hh
      simp [exceptFailed] at hh
    · rcases hs1 : doRequest (svc.synthOut (tunedQuery cat q)) with e | wav
      · have hh := hs (tunedQuery cat q)
        rw [hs1] at hh
        simp [exceptFailed] at hh
      · have hstep : quoteCategory svc cat (line :: rest) i =
            ((cat ++ "_" ++ toString i ++ ".wav", wav) :: (quoteCategory svc cat rest (i + 1)).1,
             (cat ++ "_" ++ toString i ++ ".wav") :: (quoteCategory svc cat rest (i + 1)).2.1,
             (quoteCategory svc cat rest (i + 1)).2.2) := by
          simp only [quoteCategory, hq1, hs1]
        obtain ⟨hm, he, hf⟩ := ih (i + 1)
        rw [hstep]
        refine ⟨?_, he, ?_⟩
        · show (cat ++ "_" ++ toString i ++ ".wav") :: (quoteCategory svc cat rest (i + 1)).2.1 = _
          rw [hm, List.length_cons, List.range'_succ, List.map_cons]
        · show ((cat ++ "_" ++ toString i ++ ".wav", wav) ::
            (quoteCategory svc cat rest (i + 1)).1).map Prod.fst = _
          rw [List.map_cons, hf, List.length_cons, List.range'_succ, List.map_cons]

theorem quoteBatch_all_ok {B : Type} (svc : Service B)
    (hq : ∀ s, exceptFailed (doRequest (svc.queryOut s)) = false)
    (hs : ∀ q, exceptFailed (doRequest (svc.synthOut q)) = false) :
    ∀ table : List (String × List String),
      (quoteBatch svc table).2.2 = none ∧
      (quoteBatch svc table).2.1 = expectedManifest table ∧
      (quoteBatch svc table).1.map Prod.fst = ((expectedManifest table).map Prod.snd).flatten := by
  intro table
  induction table with
  | nil => exact ⟨rfl, rfl, rfl⟩
  | cons c rest ih =>
    obtain ⟨cat, ls⟩ := c
    obtain ⟨hm, he, hf⟩ := quoteCategory_all_ok svc cat hq hs ls 0
    obtain ⟨ihe, ihm, ihf⟩ := ih
    have hstep : quoteBatch svc ((cat, ls) :: rest) =
        ((quoteCategory svc cat ls 0).1 ++ (quoteBatch svc rest).1,
         (cat, (quoteCategory svc cat ls 0).2.1) :: (quoteBatch svc rest).2.1,
         (quoteBatch svc rest).2.2) := by
      simp only [quoteBatch, he]
    rw [hstep]
    have hnames : (List.range' 0 ls.length 1).map (fun j => cat ++ "_" ++ toString j ++ ".wav")
        = (List.range ls.length).map (fun j => cat ++ "_" ++ toString j ++ ".wav") := by
      rw [List.range_eq_range' ls.length]
    refine ⟨ihe, ?_, ?_⟩
    · show (cat, (quoteCategory svc cat ls 0).2.1) :: (quoteBatch svc rest).2.1 = _
      rw [hm, hnames, ihm]
      rfl
    · show ((quoteCategory svc cat ls 0).1 ++ (quoteBatch svc rest).1).map Prod.fst = _
      rw [List.map_append, hf, hnames, ihf]
      show _ = ((expectedManifest ((cat, ls) :: rest)).map Prod.snd).flatten
      simp only [expectedManifest, List.map_cons, List.flatten_cons]

/-- C8: for every fully successful run of the category-based batch, the
manifest written maps each category, in input order, to the ordered list
of `{category}_{index}.wav` filenames, one per voice line, and these are
exactly the names of the files written. -/
theorem manifest_lists_generated_files_in_order {B : Type} (svc : Service B)
    (table : List (String × List String))
    (hq : ∀ s, exceptFailed (doRequest (svc.queryOut s)) = false)
    (hs : ∀ q, exceptFailed (doRequest (svc.synthOut q)) = false) :
    (quoteMain svc table).manifestFile = some (expectedManifest table) ∧
    (quoteMain svc table).raised = none ∧
    (quoteMain svc table).files.map Prod.fst = ((expectedManifest table).map Prod.snd).flatten := by
  obtain ⟨he, hm, hf⟩ := quoteBatch_all_ok svc hq hs table
  refine ⟨?_, ?_, hf⟩
  · show (match (quoteBatch svc table).2.2 with
      | some _ => (none : Option (List (String × List String)))
      | none => some (quoteBatch svc table).2.1) = _
    rw [he, hm]
  · show (quoteBatch svc table).2.2 = none
    exact he

/-- A service that always answers 200: an echo stub. -/
def svcAllOk : Service Nat :=
  { health := .response 200 0
    queryOut := fun _ => .response 200 []
    synthOut := fun _ => .response 200 1 }

/-- Witness for C8, which is the claim's own scenario: a batch of two
categories with one and two lines produces a manifest whose keys are
exactly the two category names with value lists of length 1 and 2, in
input order. -/
theorem manifest_lists_generated_files_witness :
    (quoteMain svcAllOk [("A", ["x"]), ("B", ["y", "z"])]).manifestFile =
      some [("A", ["A_0.wav"]), ("B", ["B_0.wav", "B_1.wav"])] := by
  have h := manifest_lists_generated_files_in_order svcAllOk [("A", ["x"]), ("B", ["y", "z"])]
    (fun s => rfl) (fun q => rfl)
  rw [h.1]
  rfl

/-! ### Claim C9 — timeouts on network calls -/

/-- C9 counterexample: not every network call carries an explicit finite
timeout — neither `requests.post` of update_voices.py passes `timeout=`,
so those calls can block indefinitely. -/
theorem update_voices_calls_lack_timeout :
    updateVoicesCalls.all (fun c => c.timeoutSec.isSome) = false := rfl

/-- C9 (amended): in the two scripts under `src/scripts/` every network
call carries an explicit finite timeout, graded 10 s for the health check,
30 s for the query step and 60 s for the synthesis step; the two calls of
update_voices.py carry no timeout at all. -/
theorem script_calls_have_graded_timeouts :
    voicevoxScriptCalls.map NetCall.timeoutSec = [some 10, some 30, some 60] ∧
    quoteScriptCalls.map NetCall.timeoutSec = [some 10, some 30, some 60] ∧
    updateVoicesCalls.map NetCall.timeoutSec = [none, none] := ⟨rfl, rfl, rfl⟩

/-! ### Claim C10 — the manifest is written only after full success -/

theorem quoteBatch_err_none_iff {B : Type} (svc : Service B)
    (table : List (String × List String)) :
    (quoteBatch svc table).2.2 = none ↔
      ∀ c ∈ table, (quoteCategory svc c.1 c.2 0).2.2 = none := by
  induction table with
  | nil => simp [quoteBatch]
  | cons c rest ih =>
    obtain ⟨cat, ls⟩ := c
    rcases hc : (quoteCategory svc cat ls 0).2.2 with _ | e
    · have hstep : (quoteBatch svc ((cat, ls) :: rest)).2.2 = (quoteBatch svc rest).2.2 := by
        simp only [quoteBatch, hc]
      rw [hstep, ih]
      constructor
      · intro h c' hmem
        rcases List.mem_cons.mp hmem with heq | hmem'
        · rw [heq]
          exact hc
        · exact h c' hmem'
      · intro h c' hmem
        exact h c' (List.mem_cons_of_mem _ hmem)
    · have hstep : (quoteBatch svc ((cat, ls) :: rest)).2.2 = some e := by
        simp only [quoteBatch, hc]
      rw [hstep]
      constructor
      · intro h
        exact absurd h (by simp)
      · intro h
        have := h (cat, ls) (List.mem_cons_self _ _)
        rw [hc] at this
        exact absurd this (by simp)

/-- C10: in the category-based batch the manifest file is written exactly
when every voice line of every category was generated successfully; if any
item fails the run aborts with no `manifest.json` written, while the files
of the items generated before the failure are still the ones on disk. -/
theorem manifest_only_after_full_success {B : Type} (svc : Service B)
    (table : List (String × List String)) :
    ((quoteMain svc table).manifestFile.isSome = true ↔
      ∀ c ∈ table, (quoteCategory svc c.1 c.2 0).2.2 = none) ∧
    ((quoteMain svc table).raised.isSome = true →
      (quoteMain svc table).manifestFile = none) ∧
    (quoteMain svc table).files = (quoteBatch svc table).1 := by
  refine ⟨?_, ?_, rfl⟩
  · rw [← quoteBatch_err_none_iff svc table]
    rcases hb : (quoteBatch svc table).2.2 with _ | e
    · simp [quoteMain, hb]
    · simp [quoteMain, hb]
  · intro h
    rcases hb : (quoteBatch svc table).2.2 with _ | e
    · rw [show (quoteMain svc table).raised = (quoteBatch svc table).2.2 from rfl, hb] at h
      simp at h
    · show (match (quoteBatch svc table).2.2 with
        | some _ => (none : Option (List (String × List String)))
        | none => some (quoteBatch svc table).2.1) = none
      rw [hb]

/-- Witness for C10: with an all-success stub over a one-category table
the manifest file is written. -/
theorem manifest_only_after_full_success_witness :
    (quoteMain svcAllOk [("A", ["x"])]).manifestFile.isSome = true := by
  refine ((manifest_only_after_full_success svcAllOk [("A", ["x"])]).1).mpr ?_
  intro c hmem
  rcases List.mem_singleton.mp hmem with rfl
  rfl

end Zunda
